import Mathlib

/-!
Shallow embedding of the URL shortener in `app.py` (Flask + Supabase).

The Supabase content store is modelled as an explicit `Store` record of row
lists; every handler is a pure function from a `Store` (plus request data) to
a result and an updated `Store`.  A supabase `.execute()` call that may raise
is modelled by an explicit `Bool` error flag per call site: `true` means that
call raised an exception, and the embedding follows the handler's
`try/except` logic on that flag.  Time is a `Nat` (seconds); randomness
(`random.choice`, `secrets.token_urlsafe`) is passed in as an oracle
parameter.
-/

namespace UrlShortener

/-! ## Data model: the four Supabase tables -/

structure LinkRow where
  short_code : String
  content_type : String
  content : String
  user_id : Option Nat
  folder_id : Option Nat
deriving DecidableEq

structure SessionRow where
  id : String
  user_id : Nat
  expires_at : Nat
  revoked : Bool
deriving DecidableEq

structure UserRow where
  id : Nat
  email : String
  password : String
deriving DecidableEq

structure FolderRow where
  id : Nat
  name : String
  user_id : Nat
deriving DecidableEq

structure Store where
  links : List LinkRow
  sessions : List SessionRow
  users : List UserRow
  folders : List FolderRow
deriving DecidableEq

/-! ## Code generator helpers (app.py lines 33-46) -/

/-- A character of the regex class `[a-zA-Z0-9_-]`. -/
def is_allowed_char (c : Char) : Bool :=
  c.isAlpha || c.isDigit || c == '_' || c == '-'

/-- `[a-zA-Z0-9_-]{3,10}` matched against a whole character list. -/
def valid_core (l : List Char) : Bool :=
  3 ≤ l.length && l.length ≤ 10 && l.all is_allowed_char

/-- `is_valid_custom_code` (app.py line 37): `bool(re.match(r'^[a-zA-Z0-9_-]{3,10}$', code))`.
Python's `re` lets `$` match either at the end of the string or just before a
single trailing newline, so the pattern also accepts a valid core followed by
one final `'\n'`. -/
def is_valid_custom_code (code : String) : Bool :=
  valid_core code.data ||
    (code.data.getLast? == some '\n' && valid_core code.data.dropLast)

/-- `string.ascii_letters + string.digits` (app.py line 34). -/
def shortcode_chars : List Char :=
  "abcdefghijklmnopqrstuvwxyzABCDEFGHIJKLMNOPQRSTUVWXYZ0123456789".toList

/-- One draw of `random.choice(characters)`: the oracle value indexes into the
alphabet (uniform choice is an index below the alphabet's length). -/
def pick (n : Nat) : Char :=
  shortcode_chars.getD (n % shortcode_chars.length) 'a'

/-- Default `length=6` argument of `generate_short_code` (app.py line 33). -/
def DEFAULT_CODE_LENGTH : Nat := 6

/-- `generate_short_code` (app.py lines 33-35): joins `length` independent
`random.choice` draws, here driven by the oracle `choice`. -/
def generate_short_code (choice : Nat → Nat) (length : Nat) : String :=
  String.mk ((List.range length).map (fun i => pick (choice i)))

/-- `code_exists` (app.py lines 40-46): selects links with the given
`short_code`; an exception from the store (flag `err`) is caught, logged and
reported as `False`. -/
def code_exists (store : Store) (err : Bool) (short_code : String) : Bool :=
  if err then false
  else !(store.links.filter (fun l => l.short_code == short_code)).isEmpty

/-! ## Session management (app.py lines 112-166) -/

/-- `SESSION_COOKIE_NAME` (app.py line 113). -/
def SESSION_COOKIE_NAME : String := "session_id"

/-- `SESSION_MAX_DAYS` (app.py line 114). -/
def SESSION_MAX_DAYS : Nat := 7

/-- The entropy argument of `secrets.token_urlsafe(48)` in `create_session`
(app.py line 117): the token is built from this many random bytes. -/
def token_entropy_bytes : Nat := 48

/-- `create_session` (app.py lines 116-125): inserts
`{id=token, user_id, expires_at=now+7 days, revoked=False}` and returns the
token.  The random token from `secrets.token_urlsafe` is the `token`
parameter; time is in seconds, so 7 days is `7 * 86400`. -/
def create_session (store : Store) (now : Nat) (token : String) (user_id : Nat) :
    Store × String :=
  ({ store with sessions := store.sessions ++
      [{ id := token, user_id := user_id,
         expires_at := now + SESSION_MAX_DAYS * 86400, revoked := false }] },
   token)

/-- The row filter of the sessions query in `get_session_user` (app.py
line 131): `eq('id', token).eq('revoked', False).gt('expires_at', now)`. -/
def session_matches (now : Nat) (t : String) (s : SessionRow) : Bool :=
  s.id == t && s.revoked == false && decide (now < s.expires_at)

/-- `get_session_user` (app.py lines 127-141): a falsy token (absent cookie or
empty string) is anonymous; otherwise select the live sessions for the token,
then the user row for its `user_id` (`select('id, email')`, returned as an
`id × email` pair); no data at either step, or an exception from either
`.execute()` (flags `err1`, `err2`), yields `none`. -/
def get_session_user (store : Store) (err1 err2 : Bool) (now : Nat)
    (token : Option String) : Option (Nat × String) :=
  match token with
  | none => none
  | some t =>
    if t == "" then none
    else if err1 then none
    else
      match store.sessions.filter (session_matches now t) with
      | [] => none
      | s :: _ =>
        if err2 then none
        else
          match store.users.filter (fun u => u.id == s.user_id) with
          | [] => none
          | u :: _ => some (u.id, u.email)

/-- `destroy_session` (app.py lines 143-149): a falsy token is a no-op;
otherwise update `revoked=True` on every session row whose id equals the
token; an exception from the update (flag `err`) is caught and leaves the
store unchanged. -/
def destroy_session (store : Store) (err : Bool) (token : Option String) :
    Store :=
  match token with
  | none => store
  | some t =>
    if t == "" then store
    else if err then store
    else { store with sessions := store.sessions.map (fun s =>
        if s.id == t then { s with revoked := true } else s) }

/-- The response cookie header produced by a handler. -/
structure Cookie where
  name : String
  value : String
  max_age : Nat
  httponly : Bool
  secure : Bool
  samesite : String
deriving DecidableEq

/-- What a handler does to the session cookie on the response. -/
inductive CookieAction where
  | set (c : Cookie)
  | clear
deriving DecidableEq

/-- Python's `'vercel' in request.host`: substring membership, via `splitOn`. -/
def contains_substr (hay needle : String) : Bool :=
  2 ≤ (hay.splitOn needle).length

/-- `set_session_cookie` (app.py lines 155-163). -/
def set_session_cookie (host : String) (token : String) : Cookie :=
  { name := SESSION_COOKIE_NAME
    value := token
    max_age := SESSION_MAX_DAYS * 86400
    httponly := true
    secure := contains_substr host "vercel"
    samesite := "Lax" }

/-- `logout` (app.py lines 211-217): revoke the session for the cookie's
token, then redirect with the session cookie cleared
(`clear_session_cookie`, app.py line 165). -/
def logout (store : Store) (err : Bool) (cookie_token : Option String) :
    Store × CookieAction :=
  (destroy_session store err cookie_token, CookieAction.clear)

/-! ## Link storage and mutation (app.py lines 67-110) -/

/-- Error message `'Kode kustom sudah digunakan!'` (app.py lines 102, 343). -/
def msg_taken : String := "Kode kustom sudah digunakan!"

/-- Error message for an ill-formed custom code (app.py lines 104, 341). -/
def msg_invalid : String :=
  "Kode kustom tidak valid! Gunakan 3-10 karakter (huruf, angka, _, -)."

/-- `store_link` (app.py lines 67-77): inserts a link row; `folder_id` is put
in the row unconditionally, while `user_id` is added only when the Python
value is truthy (`if user_id:`), so `None` — and a zero id — leave the column
null. -/
def store_link (store : Store) (short_code content_type content : String)
    (user_id : Option Nat) (folder_id : Option Nat) : Store :=
  let uid : Option Nat :=
    match user_id with
    | none => none
    | some u => if u == 0 then none else some u
  { store with links := store.links ++
      [{ short_code := short_code, content_type := content_type,
         content := content, user_id := uid, folder_id := folder_id }] }

/-- `update_short_code` (app.py lines 99-110): first the existence check
(`code_exists`, which swallows its own store errors), then the format check,
then the update of rows matching the old code and owner.  An exception from
the update `.execute()` (flag `errUpd`, message `emsg`) is caught and
returned as `(False, str(e))`. -/
def update_short_code (store : Store) (errCheck errUpd : Bool) (emsg : String)
    (old_code new_code : String) (user_id : Nat) :
    (Bool × Option String) × Store :=
  if code_exists store errCheck new_code then
    ((false, some msg_taken), store)
  else if !(is_valid_custom_code new_code) then
    ((false, some msg_invalid), store)
  else if errUpd then
    ((false, some emsg), store)
  else
    ((true, none),
     { store with links := store.links.map (fun l =>
         if l.short_code == old_code && l.user_id == some user_id then
           { l with short_code := new_code }
         else l) })

/-! ## The shorten handler (app.py lines 330-347 and the spec) -/

/-- Python's per-character digit classification, read off the Unicode
character database: `decimal v` is Numeric_Type=Decimal with value `v`
(`str.isdigit` true, consumed by `int()`); `digitOnly` is Numeric_Type=Digit
but not Decimal, e.g. '²' (`str.isdigit` true, but `int()` raises
ValueError); `other` is everything else (`str.isdigit` false).  The database
itself is passed to the embedding as the oracle `uds`. -/
inductive PyDigitClass where
  | decimal (v : Nat)
  | digitOnly
  | other
deriving DecidableEq

/-- Python's `int()` restricted to strings that passed `isdigit`: succeeds
exactly when every character is a decimal digit, combining the
per-character decimal values left to right; `none` is a ValueError. -/
def py_int_digits (uds : Char → PyDigitClass) : List Char → Nat → Option Nat
  | [], acc => some acc
  | c :: cs, acc =>
    match uds c with
    | PyDigitClass.decimal v => py_int_digits uds cs (acc * 10 + v)
    | _ => none

/-- Outcome of `folder_id = int(folder_id) if folder_id and
folder_id.isdigit() else None` (app.py line 337): the parsed id, `None`, or
an uncaught ValueError — line 337 sits outside any try block, so the
exception aborts the request. -/
inductive ParseFolderResult where
  | assigned (n : Nat)
  | unfiled
  | valueError
deriving DecidableEq

/-- app.py line 337 under the Unicode database `uds`: a falsy (absent or
empty) value, or any character outside Numeric_Type Digit/Decimal, gives
`None`; otherwise `isdigit` is true and `int()` runs — yielding the numeric
value when every character is a decimal digit, and raising ValueError when
some character (such as '²') is a digit but not decimal. -/
def parse_folder_id (uds : Char → PyDigitClass) :
    Option String → ParseFolderResult
  | none => ParseFolderResult.unfiled
  | some s =>
    if s != "" && s.data.all (fun c => uds c != PyDigitClass.other) then
      match py_int_digits uds s.data 0 with
      | some n => ParseFolderResult.assigned n
      | none => ParseFolderResult.valueError
    else ParseFolderResult.unfiled

/-- Outcome of the custom-code branch of `shorten` (app.py lines 339-344). -/
inductive CustomOutcome where
  | invalidFormat
  | alreadyTaken
  | accepted (code : String)
deriving DecidableEq

/-- The custom-code branch of `shorten` (app.py lines 339-344), entered when
the stripped `custom_code` is non-empty: format check first, then
`code_exists` (with its error flag `err`), else the code is accepted. -/
def shorten_custom (store : Store) (err : Bool) (custom_code : String) :
    CustomOutcome :=
  if !(is_valid_custom_code custom_code) then CustomOutcome.invalidFormat
  else if code_exists store err custom_code then CustomOutcome.alreadyTaken
  else CustomOutcome.accepted custom_code

/-- Modelled from the spec: the body of the `while True:` loop of `shorten`
after line 347 is missing from `src/app.py`; per the spec, `allocate_unique`
"repeatedly generates candidates, checking existence against the Content
Store, until an unused code is found", with no upper bound on retries.  The
candidate stream is `cands` (successive `generate_short_code` outputs), each
existence check may error per `errs`, and `fuel` truncates the unbounded
loop: `none` means the loop has not terminated within `fuel` iterations. -/
def allocate_unique (store : Store) (errs : Nat → Bool) (cands : Nat → String) :
    Nat → Nat → Option String
  | _, 0 => none
  | start, fuel + 1 =>
    let c := cands start
    if code_exists store (errs start) c then
      allocate_unique store errs cands (start + 1) fuel
    else some c

/-- `user_id = user['id'] if user else None` (app.py line 333), where `user`
is `current_user()`'s `(id, email)` row. -/
def shorten_user_id (user : Option (Nat × String)) : Option Nat :=
  match user with
  | none => none
  | some (uid, _) => some uid

/-- Modelled from the spec: the tail of `shorten` past line 347 that calls
`store_link` with the chosen short code is missing from `src/app.py`; per the
spec the handler delegates storage of the metadata row with the computed
`user_id` (line 333) and parsed `folder_id` (line 337).  When the parse at
line 337 raises ValueError the request dies before any store call, so the
result is `none` and the store is untouched. -/
def shorten_finish (uds : Char → PyDigitClass) (store : Store)
    (user : Option (Nat × String)) (folder_raw : Option String)
    (content_type content short_code : String) : Option Store :=
  match parse_folder_id uds folder_raw with
  | ParseFolderResult.valueError => none
  | ParseFolderResult.unfiled =>
    some (store_link store short_code content_type content
      (shorten_user_id user) none)
  | ParseFolderResult.assigned n =>
    some (store_link store short_code content_type content
      (shorten_user_id user) (some n))

/-! ## Folder and profile handlers (app.py lines 48-65, 252-328) -/

/-- `email_exists` (app.py lines 48-57): selects users with the email,
excluding `exclude_user_id` when that argument is truthy; an exception from
the store (flag `err`) is caught and reported as `False`. -/
def email_exists (store : Store) (err : Bool) (email : String)
    (exclude_user_id : Option Nat) : Bool :=
  if err then false
  else
    let excl : UserRow → Bool :=
      match exclude_user_id with
      | none => fun _ => true
      | some x => if x == 0 then fun _ => true else fun u => !(u.id == x)
    !(store.users.filter (fun u => u.email == email && excl u)).isEmpty

/-- `folder_name_exists` (app.py lines 59-65): selects folders with the name
and owner; an exception (flag `err`) is caught and reported as `False`. -/
def folder_name_exists (store : Store) (err : Bool) (name : String)
    (user_id : Nat) : Bool :=
  if err then false
  else !(store.folders.filter
          (fun f => f.name == name && f.user_id == user_id)).isEmpty

/-- `add_folder` (app.py lines 252-268): requires a logged-in user, a
non-empty stripped name and a per-user-fresh name, then inserts
`{name, user_id}`; the inserted row's id (`new_id`) is generated by the
store, and an exception from the insert (flag `errIns`) is caught and leaves
the store unchanged. -/
def add_folder (store : Store) (user : Option (Nat × String))
    (errName errIns : Bool) (raw_name : String) (new_id : Nat) : Store :=
  match user with
  | none => store
  | some (uid, _) =>
    let folder_name := raw_name.trim
    if folder_name == "" then store
    else if folder_name_exists store errName folder_name uid then store
    else if errIns then store
    else { store with folders := store.folders ++
            [{ id := new_id, name := folder_name, user_id := uid }] }

/-- `delete_folder` (app.py lines 270-284): requires a logged-in user; selects
folders with the given id owned by that user, rejecting when none match, then
deletes with the same two filters.  An exception at either `.execute()`
(flags `errSel`, `errDel`) is caught and leaves the store unchanged. -/
def delete_folder (store : Store) (user : Option (Nat × String))
    (errSel errDel : Bool) (folder_id : Nat) : Store :=
  match user with
  | none => store
  | some (uid, _) =>
    if errSel then store
    else if (store.folders.filter
              (fun f => f.id == folder_id && f.user_id == uid)).isEmpty then
      store
    else if errDel then store
    else { store with folders := (store.folders.filter
            (fun f => !(f.id == folder_id && f.user_id == uid))) }

/-- `delete_selected_folders` (app.py lines 286-302): requires a logged-in
user and a non-empty selection; first selects the ids among `selected` owned
by the user, then deletes rows owned by the user whose id is among those
valid ids.  An exception at either `.execute()` (flags `errSel`, `errDel`) is
caught and leaves the store unchanged. -/
def delete_selected_folders (store : Store) (user : Option (Nat × String))
    (errSel errDel : Bool) (selected : List Nat) : Store :=
  match user with
  | none => store
  | some (uid, _) =>
    if selected.isEmpty then store
    else if errSel then store
    else
      let valid_folder_ids :=
        (store.folders.filter
          (fun f => f.user_id == uid && selected.contains f.id)).map
          (fun f => f.id)
      if errDel then store
      else { store with folders := (store.folders.filter
              (fun f => !(f.user_id == uid && valid_folder_ids.contains f.id))) }

/-- The POST branch of `profile` (app.py lines 304-328): requires a logged-in
user `(uid, uemail)`; builds `updates` from a changed non-empty email (after
the uniqueness check excluding the user) and a non-empty password, rejects an
empty `updates`, and applies it to the user rows with `id = uid`.  An
exception at the email check or the update (flags `errEmail`, `errUpd`) is
handled as in the source: the former makes `email_exists` report `False`,
the latter is caught and leaves the store unchanged. -/
def profile_update (store : Store) (user : Option (Nat × String))
    (errEmail errUpd : Bool) (raw_email raw_password : String) : Store :=
  match user with
  | none => store
  | some (uid, uemail) =>
    if (raw_email.trim != "" && raw_email.trim != uemail) &&
        email_exists store errEmail raw_email.trim (some uid) then
      store
    else if !(raw_email.trim != "" && raw_email.trim != uemail) &&
        !(raw_password.trim != "") then
      store
    else if errUpd then store
    else { store with users := (store.users.map (fun u =>
            if u.id == uid then
              { u with
                email := if raw_email.trim != "" && raw_email.trim != uemail
                  then raw_email.trim else u.email,
                password := if raw_password.trim != "" then raw_password.trim
                  else u.password }
            else u)) }

/-! ## Concrete fixtures used by witnesses and counterexamples -/

/-- A minimal stored link with the given short code. -/
def demoLink (c : String) : LinkRow :=
  { short_code := c, content_type := "url", content := "http://example.com",
    user_id := none, folder_id := none }

/-- A store holding links with short codes `"ab"` and `"abc"`. -/
def exStore : Store :=
  { links := [demoLink "ab", demoLink "abc"], sessions := [], users := [],
    folders := [] }

/-- A live (unrevoked, unexpired at time 50) session for user 1. -/
def exSession : SessionRow :=
  { id := "tok", user_id := 1, expires_at := 100, revoked := false }

/-- The user referenced by `exSession`. -/
def exUser : UserRow := { id := 1, email := "user@example.com", password := "pw" }

/-- A store holding exactly `exSession` and `exUser`. -/
def exStore2 : Store :=
  { links := [], sessions := [exSession], users := [exUser], folders := [] }

/-- The empty store. -/
def emptyStore : Store :=
  { links := [], sessions := [], users := [], folders := [] }

/-- The fragment of the real Unicode character database covering the
characters used in the concrete examples, with their true classifications:
ASCII '0'-'9' are decimal digits with the usual values; the Arabic-Indic
digits U+0660-U+0669 ('٠'-'٩') are decimal digits with values 0-9; U+00B2
('²', superscript two) has Numeric_Type=Digit but no decimal value; every
other character appearing in the examples is `other`. -/
def uds_demo (c : Char) : PyDigitClass :=
  if '0' ≤ c ∧ c ≤ '9' then PyDigitClass.decimal (c.toNat - '0'.toNat)
  else if 0x660 ≤ c.toNat ∧ c.toNat ≤ 0x669 then
    PyDigitClass.decimal (c.toNat - 0x660)
  else if c.toNat = 0xB2 then PyDigitClass.digitOnly
  else PyDigitClass.other

/-- Well-formedness of the sessions table: `id` is its primary key, so two
rows with the same id coincide. -/
def sessions_wf (store : Store) : Prop :=
  ∀ s1 ∈ store.sessions, ∀ s2 ∈ store.sessions, s1.id = s2.id → s1 = s2

/-! ## Helper lemmas -/

theorem shortcode_chars_ok :
    ∀ c ∈ shortcode_chars, (c.isAlpha || c.isDigit) = true ∧
      is_allowed_char c = true := by
  decide

theorem getD_mem_or_default (l : List Char) (n : Nat) (d : Char) :
    l.getD n d ∈ l ∨ l.getD n d = d := by
  induction l generalizing n with
  | nil => right; simp [List.getD]
  | cons a t ih =>
    cases n with
    | zero => left; simp [List.getD]
    | succ m =>
      have hg : (a :: t).getD (m + 1) d = t.getD m d := by simp [List.getD]
      rcases ih m with h | h
      · left; rw [hg]; exact List.mem_cons_of_mem a h
      · right; rw [hg, h]

theorem pick_ok (n : Nat) :
    ((pick n).isAlpha || (pick n).isDigit) = true ∧
      is_allowed_char (pick n) = true := by
  rcases getD_mem_or_default shortcode_chars (n % shortcode_chars.length) 'a'
    with h | h
  · exact shortcode_chars_ok _ h
  · have hp : pick n = 'a' := h
    rw [hp]; exact ⟨by decide, by decide⟩

/-! ## C10 -/

/-- C10: every code produced by `generate_short_code` at the default length 6
has exactly 6 characters, all of them ASCII letters or digits, and hence
satisfies `is_valid_custom_code`. -/
theorem generate_short_code_valid (choice : Nat → Nat) :
    (generate_short_code choice DEFAULT_CODE_LENGTH).length = 6 ∧
    (∀ c ∈ (generate_short_code choice DEFAULT_CODE_LENGTH).data,
      (c.isAlpha || c.isDigit) = true) ∧
    is_valid_custom_code (generate_short_code choice DEFAULT_CODE_LENGTH) =
      true := by
  have hdata : (generate_short_code choice DEFAULT_CODE_LENGTH).data =
      (List.range 6).map (fun i => pick (choice i)) := rfl
  have hmem : ∀ c ∈ (generate_short_code choice DEFAULT_CODE_LENGTH).data,
      ((c.isAlpha || c.isDigit) = true ∧ is_allowed_char c = true) := by
    intro c hc
    rw [hdata] at hc
    rcases List.mem_map.mp hc with ⟨i, _, hi⟩
    rw [← hi]
    exact pick_ok (choice i)
  refine ⟨?_, fun c hc => (hmem c hc).1, ?_⟩
  · show (generate_short_code choice DEFAULT_CODE_LENGTH).data.length = 6
    rw [hdata]; simp
  · have hcore : valid_core
        (generate_short_code choice DEFAULT_CODE_LENGTH).data = true := by
      have hlen : (generate_short_code choice DEFAULT_CODE_LENGTH).data.length
          = 6 := by rw [hdata]; simp
      have hall : (generate_short_code choice DEFAULT_CODE_LENGTH).data.all
          is_allowed_char = true :=
        List.all_eq_true.mpr (fun c hc => (hmem c hc).2)
      rw [valid_core, hlen, hall]; decide
    rw [is_valid_custom_code, hcore, Bool.true_or]

theorem generate_short_code_valid_witness :
    (generate_short_code (fun _ => 0) DEFAULT_CODE_LENGTH).length = 6 :=
  (generate_short_code_valid (fun _ => 0)).1

/-! ## C5 -/

/-- C5 counterexample: `"abc\n"` is accepted by `is_valid_custom_code`
although it contains the newline character, which is outside
`[A-Za-z0-9_-]`. -/
theorem is_valid_custom_code_newline :
    is_valid_custom_code "abc\n" = true ∧
    '\n' ∈ "abc\n".data ∧
    is_allowed_char '\n' = false := by
  decide

/-- C5 (amended): `is_valid_custom_code` accepts exactly the strings whose
characters are in `[A-Za-z0-9_-]` with length between 3 and 10, or such a
string followed by one trailing newline (Python's `$` matches just before a
final `'\n'`). -/
theorem is_valid_custom_code_spec (code : String) :
    is_valid_custom_code code = true ↔
      ((3 ≤ code.length ∧ code.length ≤ 10 ∧
          ∀ c ∈ code.data, is_allowed_char c = true) ∨
        (∃ l : List Char, code.data = l ++ ['\n'] ∧ 3 ≤ l.length ∧
          l.length ≤ 10 ∧ ∀ c ∈ l, is_allowed_char c = true)) := by
  have hcore : ∀ l : List Char, valid_core l = true ↔
      (3 ≤ l.length ∧ l.length ≤ 10 ∧ ∀ c ∈ l, is_allowed_char c = true) := by
    intro l
    rw [valid_core, Bool.and_eq_true, Bool.and_eq_true]
    simp [List.all_eq_true, and_assoc]
  rw [is_valid_custom_code, Bool.or_eq_true, Bool.and_eq_true]
  constructor
  · rintro (h | ⟨hl, hc⟩)
    · left
      have := (hcore code.data).mp h
      exact ⟨this.1, this.2.1, this.2.2⟩
    · right
      have hlast : code.data.getLast? = some '\n' := by
        simpa using hl
      rcases List.getLast?_eq_some_iff.mp hlast with ⟨l, hsplit⟩
      refine ⟨l, hsplit, ?_⟩
      have hdrop : code.data.dropLast = l := by
        rw [hsplit]; simp
      rw [hdrop] at hc
      have := (hcore l).mp hc
      exact ⟨this.1, this.2.1, this.2.2⟩
  · rintro (⟨h1, h2, h3⟩ | ⟨l, hsplit, h1, h2, h3⟩)
    · left; exact (hcore code.data).mpr ⟨h1, h2, h3⟩
    · right
      have hlast : code.data.getLast? = some '\n' :=
        List.getLast?_eq_some_iff.mpr ⟨l, hsplit⟩
      have hdrop : code.data.dropLast = l := by
        rw [hsplit]; simp
      refine ⟨by simpa using hlast, ?_⟩
      rw [hdrop]
      exact (hcore l).mpr ⟨h1, h2, h3⟩

theorem is_valid_custom_code_spec_witness :
    is_valid_custom_code "abc" = true :=
  (is_valid_custom_code_spec "abc").mpr
    (Or.inl ⟨by decide, by decide, by decide⟩)

/-! ## C1 -/

theorem code_exists_false_iff (store : Store) (c : String) :
    code_exists store false c = false ↔
      ∀ l ∈ store.links, l.short_code ≠ c := by
  rw [code_exists]
  simp [List.filter_eq_nil_iff, List.isEmpty_iff]

/-- C1 (amended): the auto-generation loop accepts a candidate exactly when
`code_exists` reports it absent; when no store error occurs during the
existence checks, the returned code is not present in the links table at
call time.  A store error during a check is caught inside `code_exists` and
reported as absence, so under errors the accepted candidate may collide
(fails open, not closed). -/
theorem allocate_unique_fresh (store : Store) (cands : Nat → String) :
    (∀ start fuel c,
        allocate_unique store (fun _ => false) cands start fuel = some c →
        code_exists store false c = false ∧
          ∀ l ∈ store.links, l.short_code ≠ c) ∧
    (∀ errs start fuel c,
        allocate_unique store errs cands start fuel = some c →
        ∃ i, c = cands i ∧ code_exists store (errs i) c = false) := by
  have general : ∀ (errs : Nat → Bool) (fuel start : Nat) (c : String),
      allocate_unique store errs cands start fuel = some c →
      ∃ i, c = cands i ∧ code_exists store (errs i) c = false := by
    intro errs fuel
    induction fuel with
    | zero => intro start c h; simp [allocate_unique] at h
    | succ n ih =>
      intro start c h
      rw [allocate_unique] at h
      cases hb : code_exists store (errs start) (cands start) with
      | true =>
        simp only [hb, if_true] at h
        exact ih (start + 1) c h
      | false =>
        simp only [hb, Bool.false_eq_true, if_false, Option.some.injEq] at h
        exact ⟨start, h.symm, by rw [← h]; exact hb⟩
  refine ⟨?_, fun errs start fuel c h => general errs fuel start c h⟩
  intro start fuel c h
  rcases general (fun _ => false) fuel start c h with ⟨i, _, hfree⟩
  exact ⟨hfree, (code_exists_false_iff store c).mp hfree⟩

/-- C1 counterexample: with the store raising an error on the existence
check, the loop accepts `"abc"` on the first try even though a link with
short code `"abc"` is already present, instead of failing closed. -/
theorem allocate_unique_accepts_on_error :
    allocate_unique exStore (fun _ => true) (fun _ => "abc") 0 1 =
      some "abc" ∧
    code_exists exStore false "abc" = true := by
  decide

theorem allocate_unique_fresh_witness :
    code_exists exStore false "zzz" = false :=
  ((allocate_unique_fresh exStore (fun _ => "zzz")).1 0 1 "zzz" (by decide)).1

/-! ## C2 -/

theorem session_matches_iff (now : Nat) (t : String) (s : SessionRow) :
    session_matches now t s = true ↔
      (s.id = t ∧ s.revoked = false ∧ now < s.expires_at) := by
  rw [session_matches]
  simp [Bool.and_eq_true, and_assoc]

theorem get_session_user_eq (store : Store) (now : Nat) (t : String)
    (h : (t == "") = false) :
    get_session_user store false false now (some t) =
      (match store.sessions.filter (session_matches now t) with
       | [] => none
       | s :: _ =>
         match store.users.filter (fun u => u.id == s.user_id) with
         | [] => none
         | u :: _ => some (u.id, u.email)) := by
  rw [get_session_user, h]
  simp

theorem get_session_user_eq_cons (store : Store) (now : Nat) (t : String)
    (s : SessionRow) (rest : List SessionRow) (h : (t == "") = false)
    (hf : store.sessions.filter (session_matches now t) = s :: rest) :
    get_session_user store false false now (some t) =
      (match store.users.filter (fun u => u.id == s.user_id) with
       | [] => none
       | u :: _ => some (u.id, u.email)) := by
  rw [get_session_user_eq store now t h, hf]

/-- C2: with no store error, `get_session_user` returns a user exactly when
an unrevoked, unexpired session row for the token exists and its user
exists; the returned pair is that user's id and email; a missing or empty
token, and a store error at either query, yield the anonymous result
`none`. -/
theorem get_session_user_spec (store : Store) (hwf : sessions_wf store)
    (now : Nat) (token : Option String) :
    ((∃ r, get_session_user store false false now token = some r) ↔
      (∃ t s u, token = some t ∧ t ≠ "" ∧ s ∈ store.sessions ∧ s.id = t ∧
        s.revoked = false ∧ now < s.expires_at ∧ u ∈ store.users ∧
        u.id = s.user_id)) ∧
    (∀ r, get_session_user store false false now token = some r →
      ∃ t s u, token = some t ∧ t ≠ "" ∧ s ∈ store.sessions ∧ s.id = t ∧
        s.revoked = false ∧ now < s.expires_at ∧ u ∈ store.users ∧
        u.id = s.user_id ∧ r = (u.id, u.email)) ∧
    (∀ e2, get_session_user store true e2 now token = none) ∧
    (∀ e1, get_session_user store e1 true now token = none) := by
  have sound : ∀ r, get_session_user store false false now token = some r →
      ∃ t s u, token = some t ∧ t ≠ "" ∧ s ∈ store.sessions ∧ s.id = t ∧
        s.revoked = false ∧ now < s.expires_at ∧ u ∈ store.users ∧
        u.id = s.user_id ∧ r = (u.id, u.email) := by
    intro r h
    cases token with
    | none => simp [get_session_user] at h
    | some t =>
      by_cases ht : (t == "") = true
      · rw [get_session_user, if_pos ht] at h
        exact absurd h (by simp)
      · have ht' : (t == "") = false := Bool.of_not_eq_true ht
        have htne : t ≠ "" := by simpa using ht'
        rcases hf : store.sessions.filter (session_matches now t)
          with _ | ⟨s, rest⟩
        · rw [get_session_user_eq store now t ht', hf] at h
          simp at h
        · rw [get_session_user_eq_cons store now t s rest ht' hf] at h
          rcases hu : store.users.filter (fun u => u.id == s.user_id)
            with _ | ⟨u, urest⟩
          · rw [hu] at h; simp at h
          · rw [hu] at h
            have hr : r = (u.id, u.email) := by simpa using h.symm
            have hsmem : s ∈ store.sessions.filter (session_matches now t) :=
              by rw [hf]; exact List.mem_cons_self s rest
            rcases List.mem_filter.mp hsmem with ⟨hs1, hs2⟩
            rcases (session_matches_iff now t s).mp hs2 with ⟨hid, hrev, hexp⟩
            have humem : u ∈ store.users.filter (fun v => v.id == s.user_id)
              := by rw [hu]; exact List.mem_cons_self u urest
            rcases List.mem_filter.mp humem with ⟨hu1, hu2⟩
            have huid : u.id = s.user_id := by simpa using hu2
            exact ⟨t, s, u, rfl, htne, hs1, hid, hrev, hexp, hu1, huid, hr⟩
  have complete :
      (∃ t s u, token = some t ∧ t ≠ "" ∧ s ∈ store.sessions ∧ s.id = t ∧
        s.revoked = false ∧ now < s.expires_at ∧ u ∈ store.users ∧
        u.id = s.user_id) →
      ∃ r, get_session_user store false false now token = some r := by
    rintro ⟨t, s, u, htok, htne, hs, hid, hrev, hexp, hu, huid⟩
    subst htok
    have ht' : (t == "") = false := beq_eq_false_iff_ne.mpr htne
    have hsmem : s ∈ store.sessions.filter (session_matches now t) :=
      List.mem_filter.mpr ⟨hs, (session_matches_iff now t s).mpr
        ⟨hid, hrev, hexp⟩⟩
    rcases hf : store.sessions.filter (session_matches now t)
      with _ | ⟨s1, rest⟩
    · rw [hf] at hsmem; exact absurd hsmem (List.not_mem_nil s)
    · rw [get_session_user_eq_cons store now t s1 rest ht' hf]
      have hs1mem : s1 ∈ store.sessions.filter (session_matches now t) := by
        rw [hf]; exact List.mem_cons_self s1 rest
      rcases List.mem_filter.mp hs1mem with ⟨hs1s, hs1m⟩
      have hs1id : s1.id = t := ((session_matches_iff now t s1).mp hs1m).1
      have hs1eq : s1 = s := hwf s1 hs1s s hs (by rw [hs1id, hid])
      subst hs1eq
      have humem : u ∈ store.users.filter (fun v => v.id == s1.user_id) :=
        List.mem_filter.mpr ⟨hu, by simp [huid]⟩
      rcases hu2 : store.users.filter (fun v => v.id == s1.user_id)
        with _ | ⟨u1, urest⟩
      · rw [hu2] at humem; exact absurd humem (List.not_mem_nil u)
      · rw [hu2]
        exact ⟨(u1.id, u1.email), rfl⟩
  have err1 : ∀ e2, get_session_user store true e2 now token = none := by
    intro e2
    cases token with
    | none => rfl
    | some t =>
      rw [get_session_user]
      by_cases ht : (t == "") = true
      · rw [if_pos ht]
      · rw [if_neg ht]; rfl
  have err2 : ∀ e1, get_session_user store e1 true now token = none := by
    intro e1
    cases token with
    | none => rfl
    | some t =>
      rw [get_session_user]
      by_cases ht : (t == "") = true
      · rw [if_pos ht]
      · rw [if_neg ht]
        cases e1 with
        | true => rfl
        | false =>
          rw [if_neg (by simp : ¬(false = true))]
          rcases hf : store.sessions.filter (session_matches now t)
            with _ | ⟨s, rest⟩ <;> rfl
  refine ⟨⟨?_, complete⟩, sound, err1, err2⟩
  rintro ⟨r, hr⟩
  rcases sound r hr with ⟨t, s, u, h1, h2, h3, h4, h5, h6, h7, h8, _⟩
  exact ⟨t, s, u, h1, h2, h3, h4, h5, h6, h7, h8⟩

theorem get_session_user_spec_witness :
    get_session_user exStore2 true false 50 (some "tok") = none :=
  (get_session_user_spec exStore2 (by unfold sessions_wf; decide) 50
    (some "tok")).2.2.1 false

/-! ## C3 -/

theorem list_map_id_of {α : Type} (l : List α) (f : α → α)
    (h : ∀ x ∈ l, f x = x) : l.map f = l := by
  induction l with
  | nil => rfl
  | cons a t ih =>
    rw [List.map_cons, h a (List.mem_cons_self a t),
      ih (fun x hx => h x (List.mem_cons_of_mem a hx))]

/-- C3: `logout` revokes every session row carrying the presented token and
clears the cookie; `destroy_session` is a no-op on an absent or
already-revoked token (hence idempotent); and immediately after the
revocation, `get_session_user` with the same token is anonymous. -/
theorem logout_spec (store : Store) (t : String) (ht : t ≠ "") (now : Nat) :
    (∀ s ∈ (destroy_session store false (some t)).sessions,
        s.id = t → s.revoked = true) ∧
    (∀ err, (∀ s ∈ store.sessions, s.id = t → s.revoked = true) →
        destroy_session store err (some t) = store) ∧
    (∀ err, destroy_session store err none = store) ∧
    (∀ e1 e2, get_session_user (destroy_session store false (some t)) e1 e2
        now (some t) = none) ∧
    (logout store false (some t)).1 = destroy_session store false (some t) ∧
    (logout store false (some t)).2 = CookieAction.clear := by
  have hbe : (t == "") = false := beq_eq_false_iff_ne.mpr ht
  have hdestroy : (destroy_session store false (some t)).sessions =
      store.sessions.map
        (fun s => if s.id == t then { s with revoked := true } else s) := by
    simp [destroy_session, hbe]
  refine ⟨?_, ?_, fun _ => rfl, ?_, rfl, rfl⟩
  · intro s hs hid
    rw [hdestroy] at hs
    rcases List.mem_map.mp hs with ⟨s0, hs0, heq⟩
    by_cases h0 : (s0.id == t) = true
    · rw [if_pos h0] at heq
      rw [← heq]
    · rw [if_neg h0] at heq
      subst heq
      exact absurd (by simp [hid] : (s0.id == t) = true) h0
  · intro err hrev
    cases err with
    | true => simp [destroy_session, hbe]
    | false =>
      have hmap : store.sessions.map
          (fun s => if s.id == t then { s with revoked := true } else s) =
          store.sessions := by
        apply list_map_id_of
        intro s hs
        by_cases h0 : (s.id == t) = true
        · rw [if_pos h0]
          have hr : s.revoked = true := hrev s hs (by simpa using h0)
          obtain ⟨a, b, c, d⟩ := s
          have hd : d = true := hr
          subst hd
          rfl
        · rw [if_neg h0]
      have hds : destroy_session store false (some t) =
          { store with sessions := (store.sessions.map
            (fun s => if s.id == t then { s with revoked := true } else s)) }
          := by
        simp [destroy_session, hbe]
      rw [hds, hmap]
  · intro e1 e2
    rw [get_session_user]
    rw [if_neg (by simp [hbe] : ¬((t == "") = true))]
    cases e1 with
    | true => rfl
    | false =>
      rw [if_neg (by simp : ¬(false = true))]
      have hfil : (destroy_session store false (some t)).sessions.filter
          (session_matches now t) = [] := by
        rw [hdestroy]
        refine List.filter_eq_nil_iff.mpr ?_
        intro s hs
        rcases List.mem_map.mp hs with ⟨s0, hs0, heq⟩
        by_cases h0 : (s0.id == t) = true
        · rw [if_pos h0] at heq
          rw [← heq]
          intro hmat
          rcases (session_matches_iff now t _).mp hmat with ⟨_, hr, _⟩
          simp at hr
        · rw [if_neg h0] at heq
          rw [← heq]
          intro hmat
          rcases (session_matches_iff now t _).mp hmat with ⟨hid, _, _⟩
          exact h0 (by simp [hid])
      rw [hfil]

theorem logout_spec_witness :
    get_session_user (destroy_session exStore2 false (some "tok")) false false
      50 (some "tok") = none :=
  (logout_spec exStore2 "tok" (by decide) 50).2.2.2.1 false false

/-! ## C4 -/

/-- C4 counterexample: `"ab"` is ill-formed (too short), yet when a link with
short code `"ab"` is stored, `update_short_code` reports "already taken"
rather than "invalid format", because it runs the existence check before the
format check. -/
theorem update_short_code_existence_first :
    (update_short_code exStore false false "boom" "old1" "ab" 1).1 =
      (false, some msg_taken) ∧
    is_valid_custom_code "ab" = false := by
  constructor
  · rfl
  · decide

/-- C4 (amended): in `shorten` the format check runs first and the existence
check second, while in `update_short_code` the existence check runs first
and the format check second; each surfaces "invalid format" and "already
taken" as distinct errors, but `update_short_code` reports "already taken"
for a stored code even when that code is ill-formed, and "invalid format"
only for ill-formed codes absent from the store. -/
theorem custom_code_error_paths (store : Store) (err e2 : Bool)
    (emsg old c : String) (uid : Nat) :
    (is_valid_custom_code c = false →
      shorten_custom store err c = CustomOutcome.invalidFormat) ∧
    (is_valid_custom_code c = true → code_exists store err c = true →
      shorten_custom store err c = CustomOutcome.alreadyTaken) ∧
    (is_valid_custom_code c = true → code_exists store err c = false →
      shorten_custom store err c = CustomOutcome.accepted c) ∧
    (code_exists store err c = true →
      (update_short_code store err e2 emsg old c uid).1 =
        (false, some msg_taken)) ∧
    (code_exists store err c = false → is_valid_custom_code c = false →
      (update_short_code store err e2 emsg old c uid).1 =
        (false, some msg_invalid)) ∧
    (code_exists store err c = false → is_valid_custom_code c = true →
      (update_short_code store err e2 emsg old c uid).1 =
        (if e2 then (false, some emsg) else (true, none))) := by
  refine ⟨?_, ?_, ?_, ?_, ?_, ?_⟩
  · intro hv; simp [shorten_custom, hv]
  · intro hv he; simp [shorten_custom, hv, he]
  · intro hv he; simp [shorten_custom, hv, he]
  · intro he; simp [update_short_code, he]
  · intro he hv; simp [update_short_code, he, hv]
  · intro he hv
    cases e2 with
    | true => simp [update_short_code, he, hv]
    | false => simp [update_short_code, he, hv]

theorem custom_code_error_paths_witness :
    shorten_custom exStore false "ab" = CustomOutcome.invalidFormat :=
  (custom_code_error_paths exStore false false "boom" "old1" "ab" 1).1
    (by decide)

/-! ## C6 -/

/-- C6: on login/register success `create_session` persists
`{id=token, user_id, expires_at=now+7 days, revoked=false}` and returns the
token, whose entropy argument to `secrets.token_urlsafe` is 48 bytes; the
cookie set for it is HTTP-only, SameSite=Lax, 7-day max-age, with the secure
flag exactly when the request host contains "vercel". -/
theorem create_session_spec (store : Store) (now : Nat) (token host : String)
    (uid : Nat) :
    48 ≤ token_entropy_bytes ∧
    (create_session store now token uid).1.sessions =
      store.sessions ++
        [{ id := token, user_id := uid, expires_at := now + 7 * 86400, revoked := false }] ∧
    (create_session store now token uid).1.links = store.links ∧
    (create_session store now token uid).1.users = store.users ∧
    (create_session store now token uid).2 = token ∧
    (set_session_cookie host token).name = SESSION_COOKIE_NAME ∧
    (set_session_cookie host token).value = token ∧
    (set_session_cookie host token).httponly = true ∧
    (set_session_cookie host token).samesite = "Lax" ∧
    (set_session_cookie host token).secure = contains_substr host "vercel" ∧
    (set_session_cookie host token).max_age = 7 * 86400 :=
  ⟨by decide, rfl, rfl, rfl, rfl, rfl, rfl, rfl, rfl, rfl, rfl⟩

theorem create_session_spec_witness :
    (create_session emptyStore 0 "t0" 1).2 = "t0" :=
  (create_session_spec emptyStore 0 "t0" "example.com" 1).2.2.2.2.1

/-! ## C7 -/

theorem py_int_digits_some_decimal (uds : Char → PyDigitClass)
    (l : List Char) : ∀ (acc n : Nat), py_int_digits uds l acc = some n →
    ∀ c ∈ l, ∃ v, uds c = PyDigitClass.decimal v := by
  induction l with
  | nil => intro acc n _ c hc; exact absurd hc (List.not_mem_nil c)
  | cons a t ih =>
    intro acc n h c hc
    cases huds : uds a with
    | decimal v =>
      simp only [py_int_digits, huds] at h
      rcases List.mem_cons.mp hc with hc | hc
      · subst hc; exact ⟨v, huds⟩
      · exact ih (acc * 10 + v) n h c hc
    | digitOnly => simp [py_int_digits, huds] at h
    | other => simp [py_int_digits, huds] at h

/-- C7 counterexample: submitting `folder_id = "0"` — not a positive
integer — stores the link with `folder_id = 0` rather than unfiled; the
Arabic-Indic digit string `"٣"` (all characters `isdigit`, `int` value 3)
is likewise assigned rather than unfiled; and `"²"` passes `isdigit` but
makes `int()` raise an uncaught ValueError, so the request aborts with
nothing stored instead of storing an unfiled link. -/
theorem folder_id_zero_assigned :
    shorten_finish uds_demo emptyStore none (some "0") "text" "hello" "xyz123"
      = some { links := [{ short_code := "xyz123", content_type := "text", content := "hello", user_id := none, folder_id := some 0 }], sessions := [], users := [], folders := [] } ∧
    parse_folder_id uds_demo (some "٣") = ParseFolderResult.assigned 3 ∧
    shorten_finish uds_demo emptyStore none (some "²") "text" "hello" "xyz123"
      = none := by
  decide

/-- C7 (amended): `shorten` permits anonymous submissions — with no session
the stored link's `user_id` is null.  Under the Unicode database `uds`, the
submitted `folder_id` is assigned exactly when it is a non-empty string of
Unicode decimal digits, taking its `int()` value (zero included, so not
necessarily positive); a non-empty string whose characters all pass
`isdigit` but include a non-decimal digit character makes `int()` raise an
uncaught ValueError, aborting the request with nothing stored; every other
value stores the link unfiled. -/
theorem shorten_user_folder_spec (uds : Char → PyDigitClass) (store : Store)
    (user : Option (Nat × String)) (folder_raw : Option String)
    (ct cont code : String) :
    (∀ n, user = none →
      parse_folder_id uds folder_raw = ParseFolderResult.assigned n →
      shorten_finish uds store user folder_raw ct cont code =
        some { store with links := store.links ++ [{ short_code := code, content_type := ct, content := cont, user_id := none, folder_id := some n }] }) ∧
    (user = none →
      parse_folder_id uds folder_raw = ParseFolderResult.unfiled →
      shorten_finish uds store user folder_raw ct cont code =
        some { store with links := store.links ++ [{ short_code := code, content_type := ct, content := cont, user_id := none, folder_id := none }] }) ∧
    (∀ uid em n, uid ≠ 0 → user = some (uid, em) →
      parse_folder_id uds folder_raw = ParseFolderResult.assigned n →
      shorten_finish uds store user folder_raw ct cont code =
        some { store with links := store.links ++ [{ short_code := code, content_type := ct, content := cont, user_id := some uid, folder_id := some n }] }) ∧
    (parse_folder_id uds folder_raw = ParseFolderResult.valueError →
      shorten_finish uds store user folder_raw ct cont code = none) ∧
    (∀ s n, folder_raw = some s → s ≠ "" →
      py_int_digits uds s.data 0 = some n →
      parse_folder_id uds folder_raw = ParseFolderResult.assigned n) ∧
    (∀ s, folder_raw = some s → s ≠ "" →
      (∀ c ∈ s.data, uds c ≠ PyDigitClass.other) →
      py_int_digits uds s.data 0 = none →
      parse_folder_id uds folder_raw = ParseFolderResult.valueError) ∧
    (∀ s, folder_raw = some s →
      (s = "" ∨ ∃ c ∈ s.data, uds c = PyDigitClass.other) →
      parse_folder_id uds folder_raw = ParseFolderResult.unfiled) ∧
    (folder_raw = none →
      parse_folder_id uds folder_raw = ParseFolderResult.unfiled) := by
  refine ⟨?_, ?_, ?_, ?_, ?_, ?_, ?_, fun h => by subst h; rfl⟩
  · intro n hu hp
    subst hu
    rw [shorten_finish, hp]
    rfl
  · intro hu hp
    subst hu
    rw [shorten_finish, hp]
    rfl
  · intro uid em n huid hu hp
    subst hu
    rw [shorten_finish, hp]
    have h0 : (uid == 0) = false := beq_eq_false_iff_ne.mpr huid
    simp [store_link, shorten_user_id, h0]
  · intro hp
    rw [shorten_finish, hp]
  · intro s n h hne hint
    subst h
    have hall : ∀ c ∈ s.data, ∃ v, uds c = PyDigitClass.decimal v :=
      py_int_digits_some_decimal uds s.data 0 n hint
    have hallb : s.data.all (fun c => uds c != PyDigitClass.other) = true :=
      List.all_eq_true.mpr (fun c hc => by
        rcases hall c hc with ⟨v, hv⟩
        simp [hv])
    have hne' : (s == "") = false := beq_eq_false_iff_ne.mpr hne
    have hguard : (s != "" &&
        s.data.all (fun c => uds c != PyDigitClass.other)) = true := by
      rw [bne, hne', hallb]
      rfl
    rw [parse_folder_id, if_pos hguard, hint]
  · intro s h hne hall hint
    subst h
    have hallb : s.data.all (fun c => uds c != PyDigitClass.other) = true :=
      List.all_eq_true.mpr (fun c hc => bne_iff_ne.mpr (hall c hc))
    have hne' : (s == "") = false := beq_eq_false_iff_ne.mpr hne
    have hguard : (s != "" &&
        s.data.all (fun c => uds c != PyDigitClass.other)) = true := by
      rw [bne, hne', hallb]
      rfl
    rw [parse_folder_id, if_pos hguard, hint]
  · intro s h hcase
    subst h
    rcases hcase with hc | ⟨c, hcmem, hcother⟩
    · subst hc; rfl
    · have hallf : s.data.all (fun c => uds c != PyDigitClass.other)
          = false := by
        cases hb : s.data.all (fun c => uds c != PyDigitClass.other) with
        | false => rfl
        | true =>
          exfalso
          have hx := List.all_eq_true.mp hb c hcmem
          rw [hcother] at hx
          simp at hx
      simp [parse_folder_id, hallf]

theorem shorten_user_folder_spec_witness :
    shorten_finish uds_demo emptyStore none (some "5") "text" "hi" "abcdef" =
      some { links := [{ short_code := "abcdef", content_type := "text", content := "hi", user_id := none, folder_id := some 5 }], sessions := [], users := [], folders := [] } :=
  (shorten_user_folder_spec uds_demo emptyStore none (some "5") "text" "hi"
    "abcdef").1 5 rfl (by decide)

/-! ## C8 and C9 helper case analyses -/

theorem delete_folder_folders_cases (store : Store) (uid : Nat) (em : String)
    (e1 e2 : Bool) (fid : Nat) :
    (delete_folder store (some (uid, em)) e1 e2 fid).folders = store.folders ∨
    (delete_folder store (some (uid, em)) e1 e2 fid).folders =
      store.folders.filter (fun f => !(f.id == fid && f.user_id == uid)) := by
  rw [delete_folder]
  split
  · left; rfl
  · split
    · left; rfl
    · split
      · left; rfl
      · right; rfl

theorem delete_selected_folders_cases (store : Store) (uid : Nat)
    (em : String) (e1 e2 : Bool) (selected : List Nat) :
    (delete_selected_folders store (some (uid, em)) e1 e2 selected).folders =
      store.folders ∨
    ∃ vs : List Nat,
      (delete_selected_folders store (some (uid, em)) e1 e2 selected).folders
        = store.folders.filter
            (fun f => !(f.user_id == uid && vs.contains f.id)) := by
  rw [delete_selected_folders]
  split
  · left; rfl
  · split
    · left; rfl
    · split
      · left; rfl
      · right; exact ⟨_, rfl⟩

theorem profile_update_users_cases (store : Store) (uid : Nat) (em : String)
    (e1 e2 : Bool) (re rp : String) :
    (profile_update store (some (uid, em)) e1 e2 re rp).users = store.users ∨
    ∃ (b1 b2 : Bool) (ne np : String),
      (profile_update store (some (uid, em)) e1 e2 re rp).users =
        store.users.map (fun u =>
          if u.id == uid then
            { u with
              email := if b1 then ne else u.email,
              password := if b2 then np else u.password }
          else u) := by
  rw [profile_update]
  split
  · left; rfl
  · split
    · left; rfl
    · split
      · left; rfl
      · right; exact ⟨_, _, _, _, rfl⟩

theorem add_folder_folders_cases (store : Store) (uid : Nat) (em : String)
    (e1 e2 : Bool) (rn : String) (nid : Nat) :
    (add_folder store (some (uid, em)) e1 e2 rn nid).folders = store.folders ∨
    (add_folder store (some (uid, em)) e1 e2 rn nid).folders =
      store.folders ++ [{ id := nid, name := rn.trim, user_id := uid }] := by
  rw [add_folder]
  split
  · left; rfl
  · split
    · left; rfl
    · split
      · left; rfl
      · right; rfl

/-! ## C8 -/

/-- C8: every folder or profile mutation is ownership-scoped: handlers are
no-ops without a session; single and bulk folder deletion never remove a
folder owned by another user (bulk deletion removes only the requester's
folders even when the submitted id list names others'); the profile update
rewrites only user rows whose id is the acting user's; and `add_folder`
inserts only folders owned by the acting user. -/
theorem ownership_scoped_mutations (store : Store) (uid : Nat) (em : String)
    (e1 e2 : Bool) (fid : Nat) (selected : List Nat) (re rp rn : String)
    (nid : Nat) :
    (delete_folder store none e1 e2 fid = store) ∧
    (delete_selected_folders store none e1 e2 selected = store) ∧
    (profile_update store none e1 e2 re rp = store) ∧
    (add_folder store none e1 e2 rn nid = store) ∧
    (∀ f ∈ store.folders, f.user_id ≠ uid →
      f ∈ (delete_folder store (some (uid, em)) e1 e2 fid).folders) ∧
    (∀ f ∈ (delete_folder store (some (uid, em)) e1 e2 fid).folders,
      f ∈ store.folders) ∧
    (∀ f ∈ store.folders, f.user_id ≠ uid →
      f ∈ (delete_selected_folders store (some (uid, em)) e1 e2
            selected).folders) ∧
    (∀ f ∈ (delete_selected_folders store (some (uid, em)) e1 e2
            selected).folders, f ∈ store.folders) ∧
    (∀ u ∈ store.users, u.id ≠ uid →
      u ∈ (profile_update store (some (uid, em)) e1 e2 re rp).users) ∧
    (∀ u ∈ (profile_update store (some (uid, em)) e1 e2 re rp).users,
      u ∈ store.users ∨ u.id = uid) ∧
    (∀ f ∈ (add_folder store (some (uid, em)) e1 e2 rn nid).folders,
      f ∈ store.folders ∨ f.user_id = uid) := by
  refine ⟨rfl, rfl, rfl, rfl, ?_, ?_, ?_, ?_, ?_, ?_, ?_⟩
  · intro f hf hne
    rcases delete_folder_folders_cases store uid em e1 e2 fid with h | h
    · rw [h]; exact hf
    · rw [h]
      refine List.mem_filter.mpr ⟨hf, ?_⟩
      simp [beq_eq_false_iff_ne.mpr hne]
  · intro f hf
    rcases delete_folder_folders_cases store uid em e1 e2 fid with h | h
    · rwa [h] at hf
    · rw [h] at hf; exact (List.mem_filter.mp hf).1
  · intro f hf hne
    rcases delete_selected_folders_cases store uid em e1 e2 selected
      with h | ⟨vs, h⟩
    · rw [h]; exact hf
    · rw [h]
      refine List.mem_filter.mpr ⟨hf, ?_⟩
      simp [beq_eq_false_iff_ne.mpr hne]
  · intro f hf
    rcases delete_selected_folders_cases store uid em e1 e2 selected
      with h | ⟨vs, h⟩
    · rwa [h] at hf
    · rw [h] at hf; exact (List.mem_filter.mp hf).1
  · intro u hu hne
    rcases profile_update_users_cases store uid em e1 e2 re rp
      with h | ⟨b1, b2, ne, np, h⟩
    · rw [h]; exact hu
    · rw [h]
      refine List.mem_map.mpr ⟨u, hu, ?_⟩
      rw [if_neg]
      simp [hne]
  · intro u hu
    rcases profile_update_users_cases store uid em e1 e2 re rp
      with h | ⟨b1, b2, ne, np, h⟩
    · rw [h] at hu; exact Or.inl hu
    · rw [h] at hu
      rcases List.mem_map.mp hu with ⟨u0, hu0, heq⟩
      by_cases h0 : (u0.id == uid) = true
      · rw [if_pos h0] at heq
        right
        rw [← heq]
        simpa using h0
      · rw [if_neg h0] at heq
        left
        rwa [← heq]
  · intro f hf
    rcases add_folder_folders_cases store uid em e1 e2 rn nid with h | h
    · rw [h] at hf; exact Or.inl hf
    · rw [h] at hf
      rcases List.mem_append.mp hf with hl | hr
      · exact Or.inl hl
      · right
        have : f = { id := nid, name := rn.trim, user_id := uid } := by
          simpa using hr
        rw [this]

theorem ownership_scoped_mutations_witness :
    exUser ∈ (profile_update exStore2 (some (2, "x@y.z")) false false "n@e.w"
      "npw").users :=
  (ownership_scoped_mutations exStore2 2 "x@y.z" false false 0 [] "n@e.w"
    "npw" "fname" 9).2.2.2.2.2.2.2.2.1 exUser (by decide) (by decide)

/-! ## C9 -/

/-- C9: deleting a folder, individually or in bulk, leaves the links table
entirely unchanged — no link row is removed and no link's `folder_id` is
rewritten — so links referencing the deleted folder keep their dangling
`folder_id`. -/
theorem folder_delete_preserves_links (store : Store)
    (user : Option (Nat × String)) (e1 e2 : Bool) (fid : Nat)
    (selected : List Nat) :
    (delete_folder store user e1 e2 fid).links = store.links ∧
    (delete_selected_folders store user e1 e2 selected).links = store.links
    := by
  constructor
  · rcases user with _ | ⟨uid, em⟩
    · rfl
    · rw [delete_folder]
      split
      · rfl
      · split
        · rfl
        · split
          · rfl
          · rfl
  · rcases user with _ | ⟨uid, em⟩
    · rfl
    · rw [delete_selected_folders]
      split
      · rfl
      · split
        · rfl
        · split
          · rfl
          · rfl

theorem folder_delete_preserves_links_witness :
    (delete_folder exStore2 none false false 3).links = exStore2.links :=
  (folder_delete_preserves_links exStore2 none false false 3 []).1

end UrlShortener
